import Mathlib

/-!
Verification of the waSCC AWS Lambda runtime provider
(`provider/src/lib.rs`, `provider/src/lambda.rs`, `src/client.rs`).

The Rust code is shallowly embedded: bytes are `List Nat`, the per-poller
`HashSet<String>` of dispatched request ids is a `List String` with
set-semantics insertion, the shared `HashMap<String, bool>` of shutdown
flags is an association list, and the external collaborators (serde_json,
the wascc codec serializers, the url query-string serializer, and the
pluggable dispatch target) are fields of an `Externals` record, since the
repository calls them through external crates.  Effects of one poll-loop
iteration (log lines, environment writes, POSTs back to the runtime
endpoint) are reified as a list of `Action`s.
-/

namespace AwsLambdaWascc

/-- Byte sequences (`Vec<u8>` in the source). -/
abbrev Bytes := List Nat

/-! ### Base64 (model of the `base64` crate, standard alphabet with padding) -/

/-- Index of a character in the standard base64 alphabet. -/
def b64Index (ch : Char) : Option Nat :=
  if 'A' ≤ ch ∧ ch ≤ 'Z' then some (ch.toNat - 65)
  else if 'a' ≤ ch ∧ ch ≤ 'z' then some (ch.toNat - 97 + 26)
  else if '0' ≤ ch ∧ ch ≤ '9' then some (ch.toNat - 48 + 52)
  else if ch = '+' then some 62
  else if ch = '/' then some 63
  else none

/-- The standard base64 alphabet, for encoding. -/
def b64Alphabet : List Char :=
  "ABCDEFGHIJKLMNOPQRSTUVWXYZabcdefghijklmnopqrstuvwxyz0123456789+/".data

/-- Character for a sextet value. -/
def b64Char (n : Nat) : Char := b64Alphabet.getD n 'A'

/-- Base64-encode a byte list, three bytes at a time (model of `base64::encode`). -/
def base64EncodeGo : List Nat → List Char
  | [] => []
  | [b1] => [b64Char (b1 / 4), b64Char (b1 % 4 * 16), '=', '=']
  | [b1, b2] =>
      [b64Char (b1 / 4), b64Char (b1 % 4 * 16 + b2 / 16), b64Char (b2 % 16 * 4), '=']
  | b1 :: b2 :: b3 :: rest =>
      b64Char (b1 / 4) :: b64Char (b1 % 4 * 16 + b2 / 16) ::
      b64Char (b2 % 16 * 4 + b3 / 64) :: b64Char (b3 % 64) :: base64EncodeGo rest

/-- Model of `base64::encode`. -/
def base64Encode (bs : Bytes) : String := String.mk (base64EncodeGo bs)

/-- Base64-decode four characters at a time (model of `base64::decode`,
rejecting invalid symbols, bad lengths and non-canonical trailing bits). -/
def base64DecodeGo : List Char → Option Bytes
  | [] => some []
  | [a, b, '=', '='] => do
      let va ← b64Index a
      let vb ← b64Index b
      if vb % 16 = 0 then some [va * 4 + vb / 16] else none
  | [a, b, c, '='] => do
      let va ← b64Index a
      let vb ← b64Index b
      let vc ← b64Index c
      if vc % 4 = 0 then some [va * 4 + vb / 16, vb % 16 * 16 + vc / 4] else none
  | a :: b :: c :: d :: rest => do
      let va ← b64Index a
      let vb ← b64Index b
      let vc ← b64Index c
      let vd ← b64Index d
      let tail ← base64DecodeGo rest
      some ((va * 4 + vb / 16) :: (vb % 16 * 16 + vc / 4) :: (vc % 4 * 64 + vd) :: tail)
  | _ => none

/-- Model of `base64::decode`. -/
def base64Decode (s : String) : Option Bytes := base64DecodeGo s.data

/-! ### UTF-8 bytes (model of Rust `String::into_bytes`) -/

/-- UTF-8 encoding of one character. -/
def utf8Bytes (c : Char) : List Nat :=
  let n := c.toNat
  if n < 128 then [n]
  else if n < 2048 then [192 + n / 64, 128 + n % 64]
  else if n < 65536 then [224 + n / 4096, 128 + n / 64 % 64, 128 + n % 64]
  else [240 + n / 262144, 128 + n / 4096 % 64, 128 + n / 64 % 64, 128 + n % 64]

/-- Model of `String::into_bytes`: the UTF-8 bytes of a string. -/
def strBytes (s : String) : Bytes := s.data.flatMap utf8Bytes

/-! ### Data model (`lambda.rs` value types, wascc codec shapes, ALB shapes) -/

/-- Model of `lambda::InvocationEvent`: body bytes plus optional request and trace ids. -/
structure InvocationEvent where
  body : Bytes
  request_id : Option String
  trace_id : Option String
deriving DecidableEq

/-- Model of `wascc_codec::http::Request` as constructed by `dispatch_alb_http_request`. -/
structure Request where
  method : String
  path : String
  query_string : String
  header : List (String × String)
  body : Bytes
deriving DecidableEq

/-- Model of `wascc_codec::http::Response` as returned by the dispatch target. -/
structure Response where
  status_code : Nat
  status : String
  header : List (String × String)
  body : Bytes
deriving DecidableEq

/-- Model of `aws_lambda_events::event::alb::AlbTargetGroupRequest` (the fields
`dispatch_alb_http_request` reads; serde makes `http_method`, `path` and
`body` optional). -/
structure AlbTargetGroupRequest where
  http_method : Option String
  path : Option String
  query_string_parameters : List (String × String)
  headers : List (String × String)
  body : Option String
  is_base64_encoded : Bool
deriving DecidableEq

/-- Model of `aws_lambda_events::event::alb::AlbTargetGroupResponse` as built by
`dispatch_alb_http_request`. -/
structure AlbTargetGroupResponse where
  status_code : Int
  status_description : Option String
  headers : List (String × String)
  multi_value_headers : List (String × String)
  body : Option String
  is_base64_encoded : Bool
deriving DecidableEq

/-- Model of `wascc_codec::http::OP_HANDLE_REQUEST`. -/
def OP_HANDLE_REQUEST : String := "HandleRequest"

/-- Modelled from the spec: the raw-event dispatch operation name
(`codec::OP_HANDLE_EVENT` comes from this repository's codec crate, which is
not under `src/`; §4.3 describes raw-event dispatch as its own operation
flavour, distinct from HTTP-request dispatch). -/
def OP_HANDLE_EVENT : String := "HandleEvent"

/-- The external collaborators called by the poller, abstracted as functions:
`serde_json::from_slice` / `to_vec`, `url::form_urlencoded`, the wascc codec
`serialize` / `deserialize` pair, and the pluggable dispatch target
(`Dispatcher::dispatch(module_id, op, msg)` with the poller's fixed module id;
the `Option` results model the fallible serializers). -/
structure Externals where
  parseAlb : Bytes → Option AlbTargetGroupRequest
  formUrlEncoded : List (String × String) → String
  serializeRequest : Request → Option Bytes
  albToJson : AlbTargetGroupResponse → Option Bytes
  serializeEvent : Bytes → Option Bytes
  dispatch : String → Bytes → Except String Bytes
  deserializeResponse : Bytes → Option Response
  deserializeEventResponse : Bytes → Option Bytes

/-- Model of `HashSet<String>::insert` (membership semantics of the dispatched set). -/
def insertStr (l : List String) (s : String) : List String :=
  if s ∈ l then l else s :: l

/-! ### The dispatch path (`Poller` methods, `provider/src/lib.rs`) -/

/-- Model of `Poller::dispatch_http_request`: serialize, dispatch under the read lock,
record the request id in the dispatched set on dispatcher success, then
deserialize the result.  Returns the result together with the updated
dispatched set. -/
def dispatch_http_request (ext : Externals) (dispatched : List String)
    (request : Request) (request_id : String) :
    Except String Response × List String :=
  match ext.serializeRequest request with
  | none => (Except.error "Failed to serialize HTTP request", dispatched)
  | some msg =>
    match ext.dispatch OP_HANDLE_REQUEST msg with
    | Except.ok resp =>
      let dispatched := insertStr dispatched request_id
      match ext.deserializeResponse resp with
      | some r => (Except.ok r, dispatched)
      | none => (Except.error "Failed to deserialize HTTP response", dispatched)
    | Except.error e =>
      (Except.error ("Guest failed to handle HTTP request: " ++ e), dispatched)

/-- The `wascc_codec::http::Request` literal built at the top of
`Poller::dispatch_alb_http_request`: `method` and `path` are required
(`ok_or` errors), the query string is re-serialized, and the body is
base64-decoded when `is_base64_encoded` is set, taken as raw UTF-8 bytes
otherwise, empty when absent. -/
def albBuildRequest (ext : Externals) (request : AlbTargetGroupRequest) :
    Except String Request := do
  let query_string := ext.formUrlEncoded request.query_string_parameters
  let method ← match request.http_method with
    | some m => Except.ok m
    | none => Except.error "Missing method in ALB request"
  let path ← match request.path with
    | some p => Except.ok p
    | none => Except.error "Missing path in ALB request"
  let body ← match request.body with
    | some s =>
      if request.is_base64_encoded then
        match base64Decode s with
        | some bs => Except.ok bs
        | none => Except.error "Invalid base64 body in ALB request"
      else Except.ok (strBytes s)
    | none => Except.ok []
  Except.ok { method := method, path := path, query_string := query_string,
              header := request.headers, body := body }

/-- The `AlbTargetGroupResponse` literal at the bottom of
`Poller::dispatch_alb_http_request`: the body is always base64-encoded and
the encoding flag always set. -/
def albBuildResponse (response : Response) : AlbTargetGroupResponse :=
  { status_code := Int.ofNat response.status_code
    status_description := some response.status
    headers := response.header
    multi_value_headers := []
    body := some (base64Encode response.body)
    is_base64_encoded := true }

/-- Model of `Poller::dispatch_alb_http_request`. -/
def dispatch_alb_http_request (ext : Externals) (dispatched : List String)
    (request : AlbTargetGroupRequest) (request_id : String) :
    Except String AlbTargetGroupResponse × List String :=
  match albBuildRequest ext request with
  | Except.error e => (Except.error e, dispatched)
  | Except.ok req =>
    match dispatch_http_request ext dispatched req request_id with
    | (Except.ok response, d) => (Except.ok (albBuildResponse response), d)
    | (Except.error e, d) => (Except.error e, d)

/-- Model of `Poller::try_dispatch_http_request`: if the body parses as an ALB request,
dispatch it and JSON-serialize the response; otherwise return `Ok(vec![])`. -/
def try_dispatch_http_request (ext : Externals) (dispatched : List String)
    (body : Bytes) (request_id : String) : Except String Bytes × List String :=
  match ext.parseAlb body with
  | some request =>
    match dispatch_alb_http_request ext dispatched request request_id with
    | (Except.ok response, d) =>
      (match ext.albToJson response with
       | some v => (Except.ok v, d)
       | none => (Except.error "Failed to serialize ALB response", d))
    | (Except.error e, d) => (Except.error e, d)
  | none => (Except.ok [], dispatched)

/-- Model of `Poller::try_dispatch_lambda_event`: wrap the body in a `codec::Event`
envelope, dispatch it, record the request id on dispatcher success, then
deserialize the `codec::Response` envelope (the source reuses the message
"Failed to deserialize HTTP response" here). -/
def try_dispatch_lambda_event (ext : Externals) (dispatched : List String)
    (body : Bytes) (request_id : String) : Except String Bytes × List String :=
  match ext.serializeEvent body with
  | none => (Except.error "Failed to serialize Lambda raw event", dispatched)
  | some msg =>
    match ext.dispatch OP_HANDLE_EVENT msg with
    | Except.ok r =>
      let dispatched := insertStr dispatched request_id
      match ext.deserializeEventResponse r with
      | some b => (Except.ok b, dispatched)
      | none => (Except.error "Failed to deserialize HTTP response", dispatched)
    | Except.error e =>
      (Except.error ("Guest failed to handle Lambda event: " ++ e), dispatched)

/-! ### One iteration of `Poller::run` -/

/-- Observable effects of one loop iteration: log lines, the `_X_AMZN_TRACE_ID`
environment write, and the POSTs issued through `send_invocation_error` /
`send_invocation_response` (both are fire-and-forget in the source: a client
failure is only logged, so the action records the attempt). -/
inductive Action where
  | logError (msg : String)
  | logWarn (msg : String)
  | setTraceId (t : String)
  | postError (request_id : String) (msg : String)
  | postResponse (request_id : String) (body : Bytes)
deriving DecidableEq

/-- Outcome of `self.client.next_invocation_event()` at the top of an
iteration, supplied as an oracle to the loop-body model. -/
inductive FetchOutcome where
  | fetchErr (msg : String)
  | fetchNone
  | fetchSome (event : InvocationEvent)
deriving DecidableEq

/-- The final `match` of the loop body: dispatch as a Lambda raw event and
post the response, or log and post the error. -/
def lambdaPhase (ext : Externals) (dispatched : List String)
    (body : Bytes) (request_id : String) : List Action × List String :=
  match try_dispatch_lambda_event ext dispatched body request_id with
  | (Except.ok b, d) => ([Action.postResponse request_id b], d)
  | (Except.error e, d) => ([Action.logError e, Action.postError request_id e], d)

/-- Lines 220-248 of `Poller::run`: try the HTTP path first; an empty `Ok`
body means "not an HTTP request" and falls through to the raw-event path;
a non-empty `Ok` body is posted as the response; an `Err` is attributed as a
post-delivery failure when the request id is in the dispatched set (error log
plus error post, no fallback), and otherwise logged as a warning followed by
the raw-event fallback on the original bytes. -/
def dispatchPhase (ext : Externals) (dispatched : List String)
    (body : Bytes) (request_id : String) : List Action × List String :=
  match try_dispatch_http_request ext dispatched body request_id with
  | (Except.ok b, d) =>
    if b = [] then lambdaPhase ext d body request_id
    else ([Action.postResponse request_id b], d)
  | (Except.error e, d) =>
    if request_id ∈ d then ([Action.logError e, Action.postError request_id e], d)
    else
      let lp := lambdaPhase ext d body request_id
      (Action.logWarn e :: lp.1, lp.2)

/-- The `env::set_var("_X_AMZN_TRACE_ID", ...)` step, taken when the event
carries a trace id. -/
def traceActs (event : InvocationEvent) : List Action :=
  match event.trace_id with
  | some t => [Action.setTraceId t]
  | none => []

/-- One full iteration of `Poller::run` after the shutdown check, given the
fetch outcome: a fetch error is logged; no event logs a warning; an event
without a request id logs a warning and is discarded; otherwise the trace id
is exported, a duplicate request id posts an `Already dispatched` error, and
the dispatch phase runs.  Returns the iteration's actions and the updated
dispatched set. -/
def runCycle (ext : Externals) (fetch : FetchOutcome) (dispatched : List String) :
    List Action × List String :=
  match fetch with
  | FetchOutcome.fetchErr e => ([Action.logError e], dispatched)
  | FetchOutcome.fetchNone => ([Action.logWarn "No event"], dispatched)
  | FetchOutcome.fetchSome event =>
    match event.request_id with
    | none => ([Action.logWarn "No request ID"], dispatched)
    | some request_id =>
      let dupActs := if request_id ∈ dispatched
        then [Action.postError request_id ("Already dispatched: " ++ request_id)]
        else []
      let dp := dispatchPhase ext dispatched event.body request_id
      (traceActs event ++ dupActs ++ dp.1, dp.2)

/-! ### Lifecycle: the shared shutdown map (`AwsLambdaRuntimeProvider`) -/

/-- Model of `HashMap<String, bool>::get` on the shared shutdown map. -/
def lookupFlag : List (String × Bool) → String → Option Bool
  | [], _ => none
  | (k, v) :: rest, key => if k = key then some v else lookupFlag rest key

/-- Model of `HashMap::contains_key`. -/
def containsKey (m : List (String × Bool)) (key : String) : Bool :=
  (lookupFlag m key).isSome

/-- Model of `HashMap::remove`. -/
def removeKey (m : List (String × Bool)) (key : String) : List (String × Bool) :=
  m.filter (fun p => p.1 ≠ key)

/-- Model of `*lock.get_mut(module_id).unwrap() = true`: flip an existing entry. -/
def setFlag (m : List (String × Bool)) (key : String) : List (String × Bool) :=
  m.map (fun p => if p.1 = key then (p.1, true) else p)

/-- Model of `HashMap::insert` (used by the spawned poller to register `false`). -/
def insertFlag (m : List (String × Bool)) (key : String) (v : Bool) :
    List (String × Bool) :=
  (key, v) :: removeKey m key

/-- Model of `AwsLambdaRuntimeProvider::stop_polling`: unknown module ids are logged
and ignored (`Ok`); otherwise the flag is set to `true` and then the entry is
removed, still before returning.  Returns the result and the new map. -/
def stop_polling (m : List (String × Bool)) (module_id : String) :
    Except String Unit × List (String × Bool) :=
  if containsKey m module_id then
    (Except.ok (), removeKey (setFlag m module_id) module_id)
  else
    (Except.ok (), m)

/-- Model of `CapabilityConfiguration` (module id plus configuration values). -/
structure CapabilityConfiguration where
  module : String
  values : List (String × String)
deriving DecidableEq

/-- Association-list lookup on configuration values (`values.get(key)`). -/
def lookupStr : List (String × String) → String → Option String
  | [], _ => none
  | (k, v) :: rest, key => if k = key then some v else lookupStr rest key

/-- Model of `AwsLambdaRuntimeProvider::start_polling`: fails when the
`AWS_LAMBDA_RUNTIME_API` value is missing; otherwise spawns the poller
thread, whose first step registers the module's shutdown flag as `false`
(the spawned initialization is modelled as already performed). -/
def start_polling (m : List (String × Bool)) (config : CapabilityConfiguration) :
    Except String Unit × List (String × Bool) :=
  match lookupStr config.values "AWS_LAMBDA_RUNTIME_API" with
  | none => (Except.error "Missing configuration value: AWS_LAMBDA_RUNTIME_API", m)
  | some _ => (Except.ok (), insertFlag m config.module false)

/-- Model of `wascc_codec::core::OP_BIND_ACTOR`. -/
def OP_BIND_ACTOR : String := "BindActor"

/-- Model of `wascc_codec::core::OP_REMOVE_ACTOR`. -/
def OP_REMOVE_ACTOR : String := "RemoveActor"

/-- Model of `AwsLambdaRuntimeProvider::handle_call`: the two lifecycle operations are
guarded by `actor == "system"`; anything else is `Unsupported operation`.
`msg` is the already-run `deserialize(msg)` result (the wascc codec is
external); an accepted call returns `Ok(vec![])`. -/
def handle_call (m : List (String × Bool)) (actor op : String)
    (msg : Except String CapabilityConfiguration) :
    Except String Bytes × List (String × Bool) :=
  if op = OP_BIND_ACTOR ∧ actor = "system" then
    match msg with
    | Except.error e => (Except.error e, m)
    | Except.ok config =>
      let r := start_polling m config
      match r.1 with
      | Except.error e => (Except.error e, r.2)
      | Except.ok _ => (Except.ok [], r.2)
  else if op = OP_REMOVE_ACTOR ∧ actor = "system" then
    match msg with
    | Except.error e => (Except.error e, m)
    | Except.ok config =>
      let r := stop_polling m config.module
      match r.1 with
      | Except.error e => (Except.error e, r.2)
      | Except.ok _ => (Except.ok [], r.2)
  else
    (Except.error ("Unsupported operation: " ++ op), m)

/-- Result of one pass through the head of the `loop` in `Poller::run`:
`Poller::shutdown` looks its own entry up with an unchecked `unwrap`, so a
missing entry panics the poller thread; a `true` flag breaks the loop; a
`false` flag runs the iteration and continues. -/
inductive LoopStep where
  | panicked
  | exit
  | continues (actions : List Action) (dispatched : List String)
deriving DecidableEq

/-- One pass of `Poller::run`: the shutdown check (`self.shutdown()`), then,
when still live, one `runCycle`. -/
def loopStep (ext : Externals) (m : List (String × Bool)) (module_id : String)
    (fetch : FetchOutcome) (dispatched : List String) : LoopStep :=
  match lookupFlag m module_id with
  | none => LoopStep.panicked
  | some true => LoopStep.exit
  | some false =>
    let c := runCycle ext fetch dispatched
    LoopStep.continues c.1 c.2

/-! ### The runtime API client (`lambda.rs`) -/

/-- Model of `http::StatusCode::canonical_reason` (the IANA-registered
reason phrases known to the `http` crate; unregistered codes give `none`). -/
def canonicalReason (code : Nat) : Option String :=
  match code with
  | 100 => some "Continue"
  | 101 => some "Switching Protocols"
  | 102 => some "Processing"
  | 200 => some "OK"
  | 201 => some "Created"
  | 202 => some "Accepted"
  | 203 => some "Non Authoritative Information"
  | 204 => some "No Content"
  | 205 => some "Reset Content"
  | 206 => some "Partial Content"
  | 207 => some "Multi-Status"
  | 208 => some "Already Reported"
  | 226 => some "IM Used"
  | 300 => some "Multiple Choices"
  | 301 => some "Moved Permanently"
  | 302 => some "Found"
  | 303 => some "See Other"
  | 304 => some "Not Modified"
  | 305 => some "Use Proxy"
  | 307 => some "Temporary Redirect"
  | 308 => some "Permanent Redirect"
  | 400 => some "Bad Request"
  | 401 => some "Unauthorized"
  | 402 => some "Payment Required"
  | 403 => some "Forbidden"
  | 404 => some "Not Found"
  | 405 => some "Method Not Allowed"
  | 406 => some "Not Acceptable"
  | 407 => some "Proxy Authentication Required"
  | 408 => some "Request Timeout"
  | 409 => some "Conflict"
  | 410 => some "Gone"
  | 411 => some "Length Required"
  | 412 => some "Precondition Failed"
  | 413 => some "Payload Too Large"
  | 414 => some "URI Too Long"
  | 415 => some "Unsupported Media Type"
  | 416 => some "Range Not Satisfiable"
  | 417 => some "Expectation Failed"
  | 418 => some "I\x27m a teapot"
  | 421 => some "Misdirected Request"
  | 422 => some "Unprocessable Entity"
  | 423 => some "Locked"
  | 424 => some "Failed Dependency"
  | 426 => some "Upgrade Required"
  | 428 => some "Precondition Required"
  | 429 => some "Too Many Requests"
  | 431 => some "Request Header Fields Too Large"
  | 451 => some "Unavailable For Legal Reasons"
  | 500 => some "Internal Server Error"
  | 501 => some "Not Implemented"
  | 502 => some "Bad Gateway"
  | 503 => some "Service Unavailable"
  | 504 => some "Gateway Timeout"
  | 505 => some "HTTP Version Not Supported"
  | 506 => some "Variant Also Negotiates"
  | 507 => some "Insufficient Storage"
  | 508 => some "Loop Detected"
  | 510 => some "Not Extended"
  | 511 => some "Network Authentication Required"
  | _ => none

/-- Model of `http::StatusCode::is_success` (the 2xx range). -/
def isSuccess (code : Nat) : Bool := 200 ≤ code && code < 300

/-- An HTTP reply from the runtime endpoint to the fetch-next GET: status,
body bytes, and the two optional headers the client reads
(`Lambda-Runtime-Aws-Request-Id`, `Lambda-Runtime-Trace-Id`). -/
structure PollResponse where
  status : Nat
  body : Bytes
  request_id : Option String
  trace_id : Option String
deriving DecidableEq

/-- Result of a client call that can also die by `unwrap` panic. -/
inductive ClientResult (α : Type) where
  | ok (a : α)
  | panicked
deriving DecidableEq

/-- Model of `RuntimeClient::next_invocation_event`, given the endpoint's reply
(transport failures, which map to `Err`, happen before this point).  The
`info!` log line formats `status.canonical_reason().unwrap()` *before* the
success check, so when info-level logging is enabled an unregistered status
code panics; otherwise a non-success status returns `Ok(None)` and a success
status builds the event from body and headers. -/
def next_invocation_event (infoEnabled : Bool) (resp : PollResponse) :
    ClientResult (Option InvocationEvent) :=
  if infoEnabled ∧ (canonicalReason resp.status).isNone then ClientResult.panicked
  else if isSuccess resp.status then
    ClientResult.ok (some { body := resp.body, request_id := resp.request_id,
                            trace_id := resp.trace_id })
  else ClientResult.ok none

/-- Model of `RuntimeClient::send_invocation_error`, given the status of the POST
reply: the same unchecked `canonical_reason().unwrap()` in its `info!` line,
then `Ok(())`. -/
def send_invocation_error (infoEnabled : Bool) (postStatus : Nat) :
    ClientResult Unit :=
  if infoEnabled ∧ (canonicalReason postStatus).isNone then ClientResult.panicked
  else ClientResult.ok ()

/-- Model of `RuntimeClient::send_invocation_response`: its `info!` line guards with
`canonical_reason().unwrap_or("Unknown")`, so it never panics there. -/
def send_invocation_response (_infoEnabled : Bool) (_postStatus : Nat) :
    ClientResult Unit :=
  ClientResult.ok ()

/-- A concrete `Externals` instance for closed-instance theorems (all
collaborators degenerate). -/
def trivialExt : Externals where
  parseAlb := fun _ => none
  formUrlEncoded := fun _ => ""
  serializeRequest := fun _ => none
  albToJson := fun _ => none
  serializeEvent := fun _ => none
  dispatch := fun _ _ => Except.error "no target"
  deserializeResponse := fun _ => none
  deserializeEventResponse := fun _ => none

/-! ### Helper lemmas -/

theorem mem_insertStr (l : List String) (s : String) : s ∈ insertStr l s := by
  unfold insertStr
  split
  · assumption
  · exact List.mem_cons_self _ _

theorem stop_polling_fst (m : List (String × Bool)) (module_id : String) :
    (stop_polling m module_id).1 = Except.ok () := by
  unfold stop_polling
  split <;> rfl

theorem lookupFlag_removeKey (m : List (String × Bool)) (k : String) :
    lookupFlag (removeKey m k) k = none := by
  induction m with
  | nil => rfl
  | cons p rest ih =>
    rcases p with ⟨k2, v⟩
    by_cases h : k2 = k
    · simpa [removeKey, List.filter_cons, h] using ih
    · simpa [removeKey, List.filter_cons, h, lookupFlag] using ih

/-! ### Claims -/

/-- C1: the claim says that after `stop_polling` flips a running tenant's
flag, the poller loop's per-iteration shutdown check (the lookup of its
liveness entry) always succeeds and the loop exits cleanly.  The code
instead removes the entry inside `stop_polling` itself, right after setting
the flag and before returning, so once `stop_polling` has returned the
loop's next `self.shutdown()` lookup finds no entry and its unchecked
`unwrap` panics the poller thread instead of exiting cleanly. -/
theorem stop_polling_breaks_next_shutdown_check (ext : Externals)
    (m : List (String × Bool)) (module_id : String)
    (fetch : FetchOutcome) (dispatched : List String)
    (h : containsKey m module_id = true) :
    lookupFlag (stop_polling m module_id).2 module_id = none ∧
    loopStep ext (stop_polling m module_id).2 module_id fetch dispatched =
      LoopStep.panicked := by
  have h2 : (stop_polling m module_id).2 =
      removeKey (setFlag m module_id) module_id := by
    simp [stop_polling, h]
  rw [h2]
  have h3 := lookupFlag_removeKey (setFlag m module_id) module_id
  exact ⟨h3, by simp [loopStep, h3]⟩

theorem stop_polling_breaks_next_shutdown_check_witness :
    containsKey [("actor", false)] "actor" = true ∧
    lookupFlag (stop_polling [("actor", false)] "actor").2 "actor" = none ∧
    loopStep trivialExt (stop_polling [("actor", false)] "actor").2 "actor"
      FetchOutcome.fetchNone [] = LoopStep.panicked := by
  have h := stop_polling_breaks_next_shutdown_check trivialExt
    [("actor", false)] "actor" FetchOutcome.fetchNone [] (by decide)
  exact ⟨by decide, h.1, h.2⟩

/-- C7: an event fetched without a request id is discarded with only a
warning: no trace-id export, no dispatch (the result does not depend on the
dispatch target), no response or error post, and the dispatched set is
unchanged, so the loop just polls again. -/
theorem run_discards_event_without_request_id (ext : Externals) (body : Bytes)
    (t : Option String) (dispatched : List String) :
    runCycle ext (FetchOutcome.fetchSome ⟨body, none, t⟩) dispatched =
      ([Action.logWarn "No request ID"], dispatched) := rfl

/-- C8: `stop_polling` on a module id absent from the shutdown map returns
success and leaves the map untouched, and calling it again is the same
no-op. -/
theorem stop_polling_unknown_noop (m : List (String × Bool)) (module_id : String)
    (h : containsKey m module_id = false) :
    stop_polling m module_id = (Except.ok (), m) ∧
    stop_polling (stop_polling m module_id).2 module_id = (Except.ok (), m) := by
  have h1 : stop_polling m module_id = (Except.ok (), m) := by
    simp [stop_polling, h]
  refine ⟨h1, ?_⟩
  rw [h1]
  exact h1

theorem stop_polling_unknown_noop_witness :
    stop_polling [("other", false)] "ghost" = (Except.ok (), [("other", false)]) ∧
    stop_polling (stop_polling [("other", false)] "ghost").2 "ghost" =
      (Except.ok (), [("other", false)]) :=
  stop_polling_unknown_noop [("other", false)] "ghost" (by decide)

/-- C5: the claim says every non-success poll status yields `Ok(None)`.
Status 599 is non-success, yet with info logging enabled
`next_invocation_event` panics: its `info!` line formats
`status.canonical_reason().unwrap()` before the success check, and 599 has
no canonical reason (contrast `send_invocation_response`, which guards the
same call with `unwrap_or`). -/
theorem next_invocation_event_panics_on_status_599 :
    isSuccess 599 = false ∧
    canonicalReason 599 = none ∧
    next_invocation_event true
      { status := 599, body := [], request_id := none, trace_id := none } =
      ClientResult.panicked := by
  exact ⟨rfl, rfl, rfl⟩

/-- C9: whenever the endpoint's reply carries a status code with no
canonical reason phrase and info logging is enabled, both
`next_invocation_event` and `send_invocation_error` die on the unchecked
`canonical_reason().unwrap()` in their log lines; the
non-success-yields-`Ok(None)` rule does hold for a non-success status that
has a canonical reason. -/
theorem client_unwrap_panics_without_canonical_reason
    (infoEnabled : Bool) (resp resp2 : PollResponse) (postStatus : Nat)
    (hinfo : infoEnabled = true)
    (h1 : canonicalReason resp.status = none)
    (h2 : canonicalReason postStatus = none)
    (h3 : (canonicalReason resp2.status).isSome = true)
    (h4 : isSuccess resp2.status = false) :
    next_invocation_event infoEnabled resp = ClientResult.panicked ∧
    send_invocation_error infoEnabled postStatus = ClientResult.panicked ∧
    next_invocation_event infoEnabled resp2 = ClientResult.ok none := by
  subst hinfo
  obtain ⟨r, hr⟩ := Option.isSome_iff_exists.mp h3
  refine ⟨?_, ?_, ?_⟩
  · simp [next_invocation_event, h1]
  · simp [send_invocation_error, h2]
  · simp [next_invocation_event, hr, h4]

theorem client_unwrap_panics_without_canonical_reason_witness :
    next_invocation_event true
      { status := 599, body := [], request_id := none, trace_id := none } =
      ClientResult.panicked ∧
    send_invocation_error true 599 = ClientResult.panicked ∧
    next_invocation_event true
      { status := 404, body := [], request_id := none, trace_id := none } =
      ClientResult.ok none :=
  client_unwrap_panics_without_canonical_reason true
    { status := 599, body := [], request_id := none, trace_id := none }
    { status := 404, body := [], request_id := none, trace_id := none }
    599 rfl rfl rfl (by decide) (by decide)

/-- C10: `handle_call` honors the two lifecycle operations only for the
`system` actor: any other actor or operation name yields the
`Unsupported operation` error and leaves the shutdown map untouched, while
an accepted bind (with the endpoint configured) or remove returns the empty
byte vector. -/
theorem handle_call_system_gate
    (m : List (String × Bool)) (actor op : String)
    (msg : Except String CapabilityConfiguration)
    (config : CapabilityConfiguration) (ep : String)
    (hrej : actor ≠ "system" ∨ (op ≠ OP_BIND_ACTOR ∧ op ≠ OP_REMOVE_ACTOR))
    (hmsg : msg = Except.ok config)
    (hep : lookupStr config.values "AWS_LAMBDA_RUNTIME_API" = some ep) :
    handle_call m actor op msg =
      (Except.error ("Unsupported operation: " ++ op), m) ∧
    (handle_call m "system" OP_BIND_ACTOR msg).1 = Except.ok [] ∧
    (handle_call m "system" OP_REMOVE_ACTOR msg).1 = Except.ok [] := by
  have hc1 : ¬(op = OP_BIND_ACTOR ∧ actor = "system") := by
    rcases hrej with h | ⟨h1, _⟩
    · exact fun hh => h hh.2
    · exact fun hh => h1 hh.1
  have hc2 : ¬(op = OP_REMOVE_ACTOR ∧ actor = "system") := by
    rcases hrej with h | ⟨_, h2⟩
    · exact fun hh => h hh.2
    · exact fun hh => h2 hh.1
  subst hmsg
  refine ⟨by simp [handle_call, hc1, hc2], ?_, ?_⟩
  · simp [handle_call, start_polling, hep]
  · have hneq : OP_REMOVE_ACTOR ≠ OP_BIND_ACTOR := by decide
    simp [handle_call, hneq, stop_polling_fst]

theorem handle_call_system_gate_witness :
    handle_call [] "badguy" "Weird" (Except.ok
        { module := "mod", values := [("AWS_LAMBDA_RUNTIME_API", "127.0.0.1:9001")] }) =
      (Except.error "Unsupported operation: Weird", []) ∧
    (handle_call [] "system" OP_BIND_ACTOR (Except.ok
        { module := "mod", values := [("AWS_LAMBDA_RUNTIME_API", "127.0.0.1:9001")] })).1 =
      Except.ok [] ∧
    (handle_call [] "system" OP_REMOVE_ACTOR (Except.ok
        { module := "mod", values := [("AWS_LAMBDA_RUNTIME_API", "127.0.0.1:9001")] })).1 =
      Except.ok [] :=
  handle_call_system_gate [] "badguy" "Weird" _
    { module := "mod", values := [("AWS_LAMBDA_RUNTIME_API", "127.0.0.1:9001")] }
    "127.0.0.1:9001" (Or.inl (by decide)) rfl rfl

/-- C2: in every cycle where the dispatch target returns success, the
request id is inserted into the dispatched set before the target's result
bytes are decoded, on both dispatch flavours: `dispatch_http_request`
inserts before `deserialize::<http::Response>` and
`try_dispatch_lambda_event` inserts before `deserialize::<codec::Response>`.
Hence when result decoding fails, the HTTP-classified cycle hits the
`Err(e) if self.dispatched.contains(request_id)` arm (error logged and
posted, no raw-event fallback), and the raw-event cycle likewise ends with
the failure logged and posted through the error path. -/
theorem dispatched_recorded_before_result_decode (ext ext2 : Externals)
    (dispatched d2 : List String) (body body2 : Bytes) (request_id rid2 : String)
    (request : AlbTargetGroupRequest) (req : Request) (msg r msg2 r2 : Bytes)
    (hparse : ext.parseAlb body = some request)
    (hbuild : albBuildRequest ext request = Except.ok req)
    (hser : ext.serializeRequest req = some msg)
    (hdisp : ext.dispatch OP_HANDLE_REQUEST msg = Except.ok r)
    (hdec : ext.deserializeResponse r = none)
    (hparse2 : ext2.parseAlb body2 = none)
    (hser2 : ext2.serializeEvent body2 = some msg2)
    (hdisp2 : ext2.dispatch OP_HANDLE_EVENT msg2 = Except.ok r2)
    (hdec2 : ext2.deserializeEventResponse r2 = none) :
    (try_dispatch_http_request ext dispatched body request_id =
      (Except.error "Failed to deserialize HTTP response",
       insertStr dispatched request_id) ∧
     request_id ∈ (try_dispatch_http_request ext dispatched body request_id).2 ∧
     dispatchPhase ext dispatched body request_id =
      ([Action.logError "Failed to deserialize HTTP response",
        Action.postError request_id "Failed to deserialize HTTP response"],
       insertStr dispatched request_id)) ∧
    (try_dispatch_lambda_event ext2 d2 body2 rid2 =
      (Except.error "Failed to deserialize HTTP response", insertStr d2 rid2) ∧
     rid2 ∈ (try_dispatch_lambda_event ext2 d2 body2 rid2).2 ∧
     dispatchPhase ext2 d2 body2 rid2 =
      ([Action.logError "Failed to deserialize HTTP response",
        Action.postError rid2 "Failed to deserialize HTTP response"],
       insertStr d2 rid2)) := by
  have h1 : dispatch_http_request ext dispatched req request_id =
      (Except.error "Failed to deserialize HTTP response",
       insertStr dispatched request_id) := by
    simp [dispatch_http_request, hser, hdisp, hdec]
  have h2 : try_dispatch_http_request ext dispatched body request_id =
      (Except.error "Failed to deserialize HTTP response",
       insertStr dispatched request_id) := by
    simp [try_dispatch_http_request, hparse, dispatch_alb_http_request, hbuild, h1]
  have h3 : try_dispatch_lambda_event ext2 d2 body2 rid2 =
      (Except.error "Failed to deserialize HTTP response", insertStr d2 rid2) := by
    simp [try_dispatch_lambda_event, hser2, hdisp2, hdec2]
  have h4 : lambdaPhase ext2 d2 body2 rid2 =
      ([Action.logError "Failed to deserialize HTTP response",
        Action.postError rid2 "Failed to deserialize HTTP response"],
       insertStr d2 rid2) := by
    simp [lambdaPhase, h3]
  refine ⟨⟨h2, ?_, ?_⟩, h3, ?_, ?_⟩
  · rw [h2]
    exact mem_insertStr _ _
  · simp [dispatchPhase, h2, mem_insertStr]
  · rw [h3]
    exact mem_insertStr _ _
  · simp [dispatchPhase, try_dispatch_http_request, hparse2, h4]

/-- ALB request used by the closed-instance theorems for C2. -/
def c2Req : AlbTargetGroupRequest :=
  { http_method := some "GET", path := some "/x", query_string_parameters := []
    headers := [], body := none, is_base64_encoded := false }

/-- Externals for C2's closed instance: the target accepts the request but
returns bytes the response deserializer rejects. -/
def c2Ext : Externals where
  parseAlb := fun _ => some c2Req
  formUrlEncoded := fun _ => ""
  serializeRequest := fun _ => some [1]
  albToJson := fun _ => some [2]
  serializeEvent := fun b => some b
  dispatch := fun _ _ => Except.ok [3]
  deserializeResponse := fun _ => none
  deserializeEventResponse := fun b => some b

/-- Externals for C2's raw-event closed instance: the payload does not
classify as an ALB request, the raw-event target succeeds, and the
`codec::Response` deserializer rejects its bytes. -/
def c2RawExt : Externals where
  parseAlb := fun _ => none
  formUrlEncoded := fun _ => ""
  serializeRequest := fun _ => none
  albToJson := fun _ => none
  serializeEvent := fun b => some b
  dispatch := fun _ _ => Except.ok [3]
  deserializeResponse := fun _ => none
  deserializeEventResponse := fun _ => none

theorem dispatched_recorded_before_result_decode_witness :
    (try_dispatch_http_request c2Ext [] [0] "abc-1" =
      (Except.error "Failed to deserialize HTTP response", ["abc-1"]) ∧
     "abc-1" ∈ (try_dispatch_http_request c2Ext [] [0] "abc-1").2 ∧
     dispatchPhase c2Ext [] [0] "abc-1" =
      ([Action.logError "Failed to deserialize HTTP response",
        Action.postError "abc-1" "Failed to deserialize HTTP response"],
       ["abc-1"])) ∧
    (try_dispatch_lambda_event c2RawExt [] [0] "raw-1" =
      (Except.error "Failed to deserialize HTTP response", ["raw-1"]) ∧
     "raw-1" ∈ (try_dispatch_lambda_event c2RawExt [] [0] "raw-1").2 ∧
     dispatchPhase c2RawExt [] [0] "raw-1" =
      ([Action.logError "Failed to deserialize HTTP response",
        Action.postError "raw-1" "Failed to deserialize HTTP response"],
       ["raw-1"])) :=
  dispatched_recorded_before_result_decode c2Ext c2RawExt [] [] [0] [0]
    "abc-1" "raw-1" c2Req
    { method := "GET", path := "/x", query_string := "", header := [], body := [] }
    [1] [3] [0] [3] rfl rfl rfl rfl rfl rfl rfl rfl rfl

/-- C3: when the fetched event's request id is already in the dispatched
set and the poller is still live, the `Already dispatched` error is posted
first (before any dispatch of the event), the cycle's normal dispatch phase
still runs, and the loop continues rather than exiting or panicking. -/
theorem duplicate_request_id_posts_error_then_continues (ext : Externals)
    (m : List (String × Bool)) (module_id : String)
    (event : InvocationEvent) (request_id : String) (dispatched : List String)
    (hrid : event.request_id = some request_id)
    (hdup : request_id ∈ dispatched)
    (halive : lookupFlag m module_id = some false) :
    loopStep ext m module_id (FetchOutcome.fetchSome event) dispatched =
      LoopStep.continues
        (traceActs event ++
          Action.postError request_id ("Already dispatched: " ++ request_id) ::
          (dispatchPhase ext dispatched event.body request_id).1)
        (dispatchPhase ext dispatched event.body request_id).2 := by
  simp [loopStep, halive, runCycle, hrid, hdup]

theorem duplicate_request_id_posts_error_then_continues_witness :
    loopStep trivialExt [("mod", false)] "mod"
      (FetchOutcome.fetchSome { body := [], request_id := some "r", trace_id := none })
      ["r"] =
      LoopStep.continues
        (traceActs { body := [], request_id := some "r", trace_id := none } ++
          Action.postError "r" ("Already dispatched: " ++ "r") ::
          (dispatchPhase trivialExt ["r"] [] "r").1)
        (dispatchPhase trivialExt ["r"] [] "r").2 :=
  duplicate_request_id_posts_error_then_continues trivialExt [("mod", false)] "mod"
    { body := [], request_id := some "r", trace_id := none } "r" ["r"]
    rfl (by decide) (by decide)

/-- ALB request whose decode succeeded but whose required `http_method`
field is absent, for C4. -/
def c4Req : AlbTargetGroupRequest :=
  { http_method := none, path := some "/x", query_string_parameters := []
    headers := [], body := none, is_base64_encoded := false }

/-- Externals for C4: every payload parses to the method-less ALB request,
and the raw-event target answers `[42]`, so a fallback dispatch would be
visible as `postResponse _ [42]`. -/
def c4Ext : Externals where
  parseAlb := fun _ => some c4Req
  formUrlEncoded := fun _ => ""
  serializeRequest := fun _ => some []
  albToJson := fun _ => some []
  serializeEvent := fun b => some b
  dispatch := fun _ _ => Except.ok [42]
  deserializeResponse := fun _ => none
  deserializeEventResponse := fun b => some b

/-- C4 counterexample: a payload that decodes into the structured shape with
`http_method` absent, arriving while its request id `abc-1` is already in
the dispatched set (as after the endpoint re-delivers an id whose first
delivery succeeded).  The cycle posts the classification failure through the
error path and never falls back to raw-event dispatch: no warning is logged
and the raw target's `[42]` response is never posted, contradicting the
claim's "for every payload". -/
theorem missing_method_with_dispatched_id_posts_error :
    runCycle c4Ext
      (FetchOutcome.fetchSome { body := [], request_id := some "abc-1", trace_id := none })
      ["abc-1"] =
      ([Action.postError "abc-1" "Already dispatched: abc-1",
        Action.logError "Missing method in ALB request",
        Action.postError "abc-1" "Missing method in ALB request"], ["abc-1"]) ∧
    Action.logWarn "Missing method in ALB request" ∉
      (runCycle c4Ext
        (FetchOutcome.fetchSome { body := [], request_id := some "abc-1", trace_id := none })
        ["abc-1"]).1 ∧
    Action.postResponse "abc-1" [42] ∉
      (runCycle c4Ext
        (FetchOutcome.fetchSome { body := [], request_id := some "abc-1", trace_id := none })
        ["abc-1"]).1 := by
  decide

/-- C4 as amended: for every payload that decodes into the structured shape
with a required field (method or path) absent, *provided the request id is
not already in the dispatched set*, the classification failure is reported
as a warning and the cycle falls back to opaque-event dispatch of the
original unmodified body bytes. -/
theorem missing_required_field_falls_back (ext : Externals)
    (dispatched : List String) (body : Bytes) (request_id : String)
    (request : AlbTargetGroupRequest)
    (hparse : ext.parseAlb body = some request)
    (hmiss : request.http_method = none ∨ request.path = none)
    (hnd : request_id ∉ dispatched) :
    ∃ e, albBuildRequest ext request = Except.error e ∧
      dispatchPhase ext dispatched body request_id =
        (Action.logWarn e :: (lambdaPhase ext dispatched body request_id).1,
         (lambdaPhase ext dispatched body request_id).2) := by
  obtain ⟨e, he⟩ : ∃ e, albBuildRequest ext request = Except.error e := by
    rcases hmiss with h | h
    · exact ⟨"Missing method in ALB request",
        by simp [albBuildRequest, Bind.bind, Except.bind, h]⟩
    · cases hm : request.http_method with
      | none => exact ⟨"Missing method in ALB request",
          by simp [albBuildRequest, Bind.bind, Except.bind, hm]⟩
      | some mth => exact ⟨"Missing path in ALB request",
          by simp [albBuildRequest, Bind.bind, Except.bind, hm, h]⟩
  have h1 : try_dispatch_http_request ext dispatched body request_id =
      (Except.error e, dispatched) := by
    simp [try_dispatch_http_request, hparse, dispatch_alb_http_request, he]
  exact ⟨e, he, by simp [dispatchPhase, h1, hnd]⟩

theorem missing_required_field_falls_back_witness :
    ∃ e, albBuildRequest c4Ext c4Req = Except.error e ∧
      dispatchPhase c4Ext [] [] "r1" =
        (Action.logWarn e :: (lambdaPhase c4Ext [] [] "r1").1,
         (lambdaPhase c4Ext [] [] "r1").2) :=
  missing_required_field_falls_back c4Ext [] [] "r1" c4Req rfl
    (Or.inl rfl) (by decide)

/-- ALB request carrying a base64-encoded body, for C6. -/
def c6Req : AlbTargetGroupRequest :=
  { http_method := some "GET", path := some "/x", query_string_parameters := []
    headers := [], body := some "aGVsbG8=", is_base64_encoded := true }

/-- A target response, for C6's outbound side. -/
def c6Resp : Response :=
  { status_code := 200, status := "OK", header := [], body := strBytes "hi" }

/-- C6: inbound, a structured request whose encoding flag is set has its
body base64-decoded into the `wascc_codec::http::Request` handed to the
target, and an unset flag yields the raw UTF-8 bytes; outbound, the
structured response built from the target's answer always carries
`is_base64_encoded = true` and a base64-encoded body, whatever the inbound
encoding was. -/
theorem alb_body_encoding (ext : Externals) (request : AlbTargetGroupRequest)
    (mth pth s : String) (bs : Bytes)
    (hm : request.http_method = some mth) (hp : request.path = some pth) :
    (request.is_base64_encoded = true → request.body = some s →
        base64Decode s = some bs →
        albBuildRequest ext request = Except.ok
          { method := mth, path := pth,
            query_string := ext.formUrlEncoded request.query_string_parameters,
            header := request.headers, body := bs }) ∧
    (request.is_base64_encoded = false → request.body = some s →
        albBuildRequest ext request = Except.ok
          { method := mth, path := pth,
            query_string := ext.formUrlEncoded request.query_string_parameters,
            header := request.headers, body := strBytes s }) ∧
    ∀ response : Response,
      (albBuildResponse response).is_base64_encoded = true ∧
      (albBuildResponse response).body = some (base64Encode response.body) := by
  refine ⟨?_, ?_, fun response => ⟨rfl, rfl⟩⟩
  · intro hb64 hbody hdec
    simp [albBuildRequest, Bind.bind, Except.bind, hm, hp, hbody, hb64, hdec]
  · intro hb64 hbody
    simp [albBuildRequest, Bind.bind, Except.bind, hm, hp, hbody, hb64]

theorem alb_body_encoding_witness :
    albBuildRequest trivialExt c6Req = Except.ok
      { method := "GET", path := "/x", query_string := "", header := []
        body := strBytes "hello" } ∧
    (albBuildResponse c6Resp).is_base64_encoded = true ∧
    (albBuildResponse c6Resp).body = some (base64Encode c6Resp.body) := by
  have h := alb_body_encoding trivialExt c6Req "GET" "/x" "aGVsbG8="
    (strBytes "hello") rfl rfl
  exact ⟨h.1 rfl rfl (by decide), (h.2.2 c6Resp).1, (h.2.2 c6Resp).2⟩

end AwsLambdaWascc
